import Mathlib

/-!
Shallow embedding of `lib/sqlalchemy/dialects/mysql/gaerdbms.py`, the
Google App Engine Cloud SQL dialect for SQLAlchemy, together with proofs
about its behaviour.

Modelling conventions:
* Python dicts that are only built and queried by string keys become
  insertion-ordered association lists (`lookupAssoc` / `dictSet` mirror
  `d[k]` reads and `d[k] = v` writes).
* Python byte strings (py2 `str`) become `List Nat`, one entry per byte;
  a genuine byte string has every entry `< 256`.
* Python 2 `unicode` values become `List Nat`, one entry per code point,
  because py2's UTF-8 codec can produce lone surrogates, which a Lean
  `Char` cannot represent.
* A function that can raise becomes one returning `Except PyErr _` (or
  `Option _` when the source converts the failure into a value).
* Module objects and class objects selected or returned by the code
  become inductive tags (`DBAPIModule`, `PoolClass`, `ConvFun`, ...),
  since the code only ever passes them around by identity.
-/

/-- Errors the embedded fragments can raise.  The only error the modelled
code itself produces is a Python `KeyError` from a dict subscript. -/
inductive PyErr
  | keyError (key : String)
deriving DecidableEq, Repr

/-- Tags for the key set of the `CONVERTERS` dict: Python native types
(`types.IntType`, ..., `datetime.date`, ..., `converters.Blob`) and the
JDBC type codes from `google.storage.speckle.proto.jdbc_type`. -/
inductive ConvKey
  | IntType | LongType | FloatType | TupleType | BooleanType
  | StringType | UnicodeType
  | date | datetime | time
  | Blob
  | BIT | SMALLINT | INTEGER | BIGINT | TINYINT
  | REAL | DOUBLE | NUMERIC | DECIMAL | FLOAT
  | CHAR | VARCHAR | LONGVARCHAR
  | DATE | TIME | TIMESTAMP
  | BINARY | VARBINARY | LONGVARBINARY | BLOB
  | CLOB | NCLOB | NCHAR | NVARCHAR | LONGNVARCHAR
  | ARRAY | NULL | OTHER | JAVA_OBJECT | DISTINCT
  | STRUCT | REF | DATALINK | BOOLEAN | ROWID | SQLXML
deriving DecidableEq, Repr

/-- Tags for the converter functions stored as values of `CONVERTERS`:
the functions from `google.storage.speckle.python.api.converters`, the
Python builtins `int` and `float`, the `converters.Blob` class used as a
constructor, and the module-local `Str2Unicode`. -/
inductive ConvFun
  | Any2Str | Tuple2Str | Bool2Str | Unicode2Str
  | Date2Str | Datetime2Str | Time2Str
  | Str2Date | Str2Time | Str2Datetime
  | blobClass | pyInt | pyFloat | str2UnicodeFn
deriving DecidableEq, Repr

/-- The static module-level `CONVERTERS` dict, entry for entry in source
order. -/
def CONVERTERS : List (ConvKey × ConvFun) := [
  (ConvKey.IntType, ConvFun.Any2Str),
  (ConvKey.LongType, ConvFun.Any2Str),
  (ConvKey.FloatType, ConvFun.Any2Str),
  (ConvKey.TupleType, ConvFun.Tuple2Str),
  (ConvKey.BooleanType, ConvFun.Bool2Str),
  (ConvKey.StringType, ConvFun.Any2Str),
  (ConvKey.UnicodeType, ConvFun.Unicode2Str),
  (ConvKey.date, ConvFun.Date2Str),
  (ConvKey.datetime, ConvFun.Datetime2Str),
  (ConvKey.time, ConvFun.Time2Str),
  (ConvKey.Blob, ConvFun.Any2Str),
  (ConvKey.BIT, ConvFun.pyInt),
  (ConvKey.SMALLINT, ConvFun.pyInt),
  (ConvKey.INTEGER, ConvFun.pyInt),
  (ConvKey.BIGINT, ConvFun.pyInt),
  (ConvKey.TINYINT, ConvFun.pyInt),
  (ConvKey.REAL, ConvFun.pyFloat),
  (ConvKey.DOUBLE, ConvFun.pyFloat),
  (ConvKey.NUMERIC, ConvFun.pyFloat),
  (ConvKey.DECIMAL, ConvFun.pyFloat),
  (ConvKey.FLOAT, ConvFun.pyFloat),
  (ConvKey.CHAR, ConvFun.str2UnicodeFn),
  (ConvKey.VARCHAR, ConvFun.str2UnicodeFn),
  (ConvKey.LONGVARCHAR, ConvFun.str2UnicodeFn),
  (ConvKey.DATE, ConvFun.Str2Date),
  (ConvKey.TIME, ConvFun.Str2Time),
  (ConvKey.TIMESTAMP, ConvFun.Str2Datetime),
  (ConvKey.BINARY, ConvFun.blobClass),
  (ConvKey.VARBINARY, ConvFun.blobClass),
  (ConvKey.LONGVARBINARY, ConvFun.blobClass),
  (ConvKey.BLOB, ConvFun.blobClass),
  (ConvKey.CLOB, ConvFun.str2UnicodeFn),
  (ConvKey.NCLOB, ConvFun.str2UnicodeFn),
  (ConvKey.NCHAR, ConvFun.str2UnicodeFn),
  (ConvKey.NVARCHAR, ConvFun.str2UnicodeFn),
  (ConvKey.LONGNVARCHAR, ConvFun.str2UnicodeFn),
  (ConvKey.ARRAY, ConvFun.str2UnicodeFn),
  (ConvKey.NULL, ConvFun.str2UnicodeFn),
  (ConvKey.OTHER, ConvFun.str2UnicodeFn),
  (ConvKey.JAVA_OBJECT, ConvFun.str2UnicodeFn),
  (ConvKey.DISTINCT, ConvFun.str2UnicodeFn),
  (ConvKey.STRUCT, ConvFun.str2UnicodeFn),
  (ConvKey.REF, ConvFun.str2UnicodeFn),
  (ConvKey.DATALINK, ConvFun.str2UnicodeFn),
  (ConvKey.BOOLEAN, ConvFun.str2UnicodeFn),
  (ConvKey.ROWID, ConvFun.str2UnicodeFn),
  (ConvKey.SQLXML, ConvFun.str2UnicodeFn)]

/-- A Python value as it appears in the keyword-argument dict built by
`create_connect_args`: a string, an integer (the port), or the converter
table passed as the `conv` argument. -/
inductive PyValue
  | str (s : String)
  | int (n : Int)
  | conv (t : List (ConvKey × ConvFun))
deriving DecidableEq, Repr

/-- The keyword-argument dict (`opts` in the source). -/
abbrev Opts := List (String × PyValue)

/-- The process environment `os.environ`, as an association list. -/
abbrev Environ := List (String × String)

/-- First-occurrence lookup in an association list; models the Python
dict read `d[k]` returning `some` on a hit and `none` on a `KeyError`. -/
def lookupAssoc {α : Type} : List (String × α) → String → Option α
  | [], _ => none
  | (k', v) :: rest, k => if k' = k then some v else lookupAssoc rest k

/-- Python dict assignment `d[k] = v`: replace the value in place when
the key is present, append the new pair otherwise. -/
def dictSet {α : Type} : List (String × α) → String → α → List (String × α)
  | [], k, v => [(k, v)]
  | (k', v') :: rest, k, v =>
      if k' = k then (k', v) :: rest else (k', v') :: dictSet rest k v

/-- Does the second character list start with the first?  Executable
model of Python's `str.startswith` test. -/
def startsWithList : List Char → List Char → Bool
  | [], _ => true
  | _ :: _, [] => false
  | p :: ps, c :: cs => if p = c then startsWithList ps cs else false

/-- Python's `s.startswith(pre)`. -/
def pyStartswith (s pre : String) : Bool :=
  startsWithList pre.data s.data

/-- `_is_dev_environment()`:
`os.environ.get('SERVER_SOFTWARE', '').startswith('Development/')`. -/
def _is_dev_environment (environ : Environ) : Bool :=
  pyStartswith ((lookupAssoc environ "SERVER_SOFTWARE").getD "") "Development/"

/-- The three vendor client modules `dbapi` chooses between. -/
inductive DBAPIModule
  | rdbms_mysqldb
  | rdbms_apiproxy
  | rdbms_googleapi
deriving DecidableEq, Repr

/-- `MySQLDialect_gaerdbms.dbapi()`.  The runtime stub registry
`apiproxy_stub_map.apiproxy` is modelled by the truthiness of its
`GetStub` query; the selected module is returned as a tag. -/
def dbapi (environ : Environ) (getStub : String → Bool) : DBAPIModule :=
  if _is_dev_environment environ then
    DBAPIModule.rdbms_mysqldb
  else if getStub "rdbms" then
    DBAPIModule.rdbms_apiproxy
  else
    DBAPIModule.rdbms_googleapi

/-- The pool implementations an engine can install. -/
inductive PoolClass
  | NullPool
  | QueuePool
  | StaticPool
deriving DecidableEq, Repr

/-- A parsed connection URL: the standard components plus the query-string
parameters.  (The URL class itself lives in the toolkit's engine layer,
outside this file; only the fields this dialect reads are modelled.) -/
structure URL where
  host : Option String
  database : Option String
  username : Option String
  password : Option String
  port : Option Int
  query : List (String × String)

/-- `MySQLDialect_gaerdbms.get_pool_class(url)`: always `NullPool`. -/
def get_pool_class (_url : URL) : PoolClass :=
  PoolClass.NullPool

/-- Helper for `translate_connect_args`: a singleton dict entry when the
component is present, nothing otherwise. -/
def optEntry (k : String) (v : Option PyValue) : Opts :=
  match v with
  | some x => [(k, x)]
  | none => []

/-- Modelled from the spec: the base URL translation
(`URL.translate_connect_args` of the toolkit's engine layer, whose source
is not included under `src/`).  Per the spec the translator "always
carries through whatever the base URL translation produces"; that base
translation turns the parsed URL's standard components (host, database,
username, password, port) into keyword arguments, including each one only
when present, and produces none of the keys `dsn`, `instance`, `conv`. -/
def translate_connect_args (url : URL) : Opts :=
  optEntry "host" (url.host.map PyValue.str) ++
  optEntry "database" (url.database.map PyValue.str) ++
  optEntry "username" (url.username.map PyValue.str) ++
  optEntry "password" (url.password.map PyValue.str) ++
  optEntry "port" (url.port.map PyValue.int)

/-- `MySQLDialect_gaerdbms.create_connect_args(url)`.  Mirrors the source
statement by statement: build `opts` from the base translation; outside
the development sandbox assign `opts['dsn'] = ''`, then read
`url.query['instance']` (a dict subscript, so a missing key raises
`KeyError`), assign it to `opts['instance']`, assign
`opts['conv'] = CONVERTERS`; finally return `[], opts`. -/
def create_connect_args (environ : Environ) (url : URL) :
    Except PyErr (List PyValue × Opts) :=
  let opts := translate_connect_args url
  if ! _is_dev_environment environ then
    let opts1 := dictSet opts "dsn" (PyValue.str "")
    match lookupAssoc url.query "instance" with
    | none => Except.error (PyErr.keyError "instance")
    | some inst =>
      let opts2 := dictSet opts1 "instance" (PyValue.str inst)
      let opts3 := dictSet opts2 "conv" (PyValue.conv CONVERTERS)
      Except.ok ([], opts3)
  else
    Except.ok ([], opts)

/-- Is `b` a UTF-8 continuation byte (`0x80`–`0xBF`)? -/
def isContByte (b : Nat) : Bool :=
  decide (0x80 ≤ b ∧ b ≤ 0xBF)

/-- Allowed range of the second byte of a three-byte UTF-8 sequence,
given the leading byte.  Lead byte `0xE0` narrows it to exclude overlong
forms; surrogate encodings (lead `0xED`, second byte `0xA0`–`0xBF`) are
accepted, because CPython 2.x's UTF-8 codec — what `unicode(arg,
'utf-8')` runs — decodes them to lone surrogates rather than rejecting
them (its strict surrogate check is disabled). -/
def cont3Ok (b1 b2 : Nat) : Bool :=
  if b1 = 0xE0 then decide (0xA0 ≤ b2 ∧ b2 ≤ 0xBF)
  else isContByte b2

/-- Allowed range of the second byte of a four-byte UTF-8 sequence,
given the leading byte (excludes overlong forms and values past
`U+10FFFF`). -/
def cont4Ok (b1 b2 : Nat) : Bool :=
  if b1 = 0xF0 then decide (0x90 ≤ b2 ∧ b2 ≤ 0xBF)
  else if b1 = 0xF4 then decide (0x80 ≤ b2 ∧ b2 ≤ 0x8F)
  else isContByte b2

/-- Fueled UTF-8 decoder, to a list of code points: `none` exactly when
the byte sequence is not acceptable to CPython 2.x's UTF-8 codec.  The
result is a code-point list rather than a Lean `String` because that
codec can produce lone surrogates, which a Lean `Char` cannot carry.
The fuel only bounds recursion; each step consumes at least one byte, so
fuel `= length` always suffices (see `utf8Decode`). -/
def utf8CharsF : Nat → List Nat → Option (List Nat)
  | _, [] => some []
  | 0, _ :: _ => none
  | Nat.succ f, b1 :: bs =>
    if b1 ≤ 0x7F then
      (utf8CharsF f bs).map (fun cs => b1 :: cs)
    else if 0xC2 ≤ b1 ∧ b1 ≤ 0xDF then
      match bs with
      | b2 :: bs2 =>
        if isContByte b2 then
          (utf8CharsF f bs2).map
            (fun cs => ((b1 % 0x20) * 0x40 + b2 % 0x40) :: cs)
        else none
      | [] => none
    else if 0xE0 ≤ b1 ∧ b1 ≤ 0xEF then
      match bs with
      | b2 :: b3 :: bs3 =>
        if cont3Ok b1 b2 ∧ isContByte b3 then
          (utf8CharsF f bs3).map
            (fun cs =>
              ((b1 % 0x10) * 0x1000 + (b2 % 0x40) * 0x40 + b3 % 0x40) :: cs)
        else none
      | _ => none
    else if 0xF0 ≤ b1 ∧ b1 ≤ 0xF4 then
      match bs with
      | b2 :: b3 :: b4 :: bs4 =>
        if cont4Ok b1 b2 ∧ isContByte b3 ∧ isContByte b4 then
          (utf8CharsF f bs4).map
            (fun cs =>
              ((b1 % 8) * 0x40000 + (b2 % 0x40) * 0x1000 +
                (b3 % 0x40) * 0x40 + b4 % 0x40) :: cs)
        else none
      | _ => none
    else none

/-- `unicode(arg, 'utf-8')`: `some` of the decoded code points when the
bytes are acceptable UTF-8, `none` for the `UnicodeDecodeError` case. -/
def utf8Decode (bs : List Nat) : Option (List Nat) :=
  utf8CharsF bs.length bs

/-- The text obtained by Latin-1 decoding: every byte maps directly to
the code point of the same value. -/
def latin1Text (bs : List Nat) : List Nat :=
  bs

/-- `unicode(arg, 'latin-1')`: Latin-1 decoding is defined on every
genuine byte (value `< 256`); an entry outside the byte range models a
value on which the decode would fail. -/
def latin1Decode (bs : List Nat) : Option (List Nat) :=
  if bs.all (fun b => b < 256) then some (latin1Text bs) else none

/-- The literal `"[ERROR]"` sentinel, as code points. -/
def errorSentinel : List Nat :=
  "[ERROR]".data.map Char.toNat

/-- `Str2Unicode(arg)`: try UTF-8, fall back to Latin-1, and degrade to
the literal sentinel when both decodings fail. -/
def Str2Unicode (bs : List Nat) : List Nat :=
  match utf8Decode bs with
  | some s => s
  | none =>
    match latin1Decode bs with
    | some s => s
    | none => errorSentinel

/-- The leading run of decimal digits of a character list, paired with
the remainder; models what `\d+` (greedy, anchored) consumes. -/
def leadingDigits : List Char → List Char × List Char
  | [] => ([], [])
  | c :: cs =>
    if c.isDigit then
      let p := leadingDigits cs
      (c :: p.1, p.2)
    else ([], c :: cs)

/-- `int(code)` on a non-empty decimal-digit string. -/
def digitsToNat (ds : List Char) : Nat :=
  ds.foldl (fun acc c => acc * 10 + (c.toNat - 48)) 0

/-- First alternative of the regex, `^(\d+)L?:` — a non-empty leading
digit run, an optional `L`, then a colon; returns the captured digits. -/
def matchAlt1 (cs : List Char) : Option (List Char) :=
  if (leadingDigits cs).1 = [] then none
  else
    match (leadingDigits cs).2 with
    | ':' :: _ => some (leadingDigits cs).1
    | 'L' :: ':' :: _ => some (leadingDigits cs).1
    | _ => none

/-- Second alternative of the regex, `^\((\d+)L?,` — an opening
parenthesis, a non-empty digit run, an optional `L`, then a comma;
returns the captured digits. -/
def matchAlt2 (cs : List Char) : Option (List Char) :=
  match cs with
  | '(' :: rest =>
    if (leadingDigits rest).1 = [] then none
    else
      match (leadingDigits rest).2 with
      | ',' :: _ => some (leadingDigits rest).1
      | 'L' :: ',' :: _ => some (leadingDigits rest).1
      | _ => none
  | _ => none

/-- `MySQLDialect_gaerdbms._extract_error_code(exception)`: match the
regex `^(\d+)L?:|^\((\d+)L?,` against the stringified exception, take
`group(1) or group(2)`, and return `int` of it; `none` when the regex
does not match (the captured group is never empty on a match, so the
`if code:` truthiness test never suppresses a matched code). -/
def _extract_error_code (s : String) : Option Nat :=
  match matchAlt1 s.data with
  | some ds => some (digitsToNat ds)
  | none =>
    match matchAlt2 s.data with
    | some ds => some (digitsToNat ds)
    | none => none

/-- Specification-side reading of the error-code pattern: the
stringified exception starts with the captured non-empty digit run `ds`,
optionally suffixed `L`, terminated by `:` (first alternative) or
wrapped as `(` ... `,` (second alternative), and the recovered code is
`ds` read as a decimal number. -/
def ErrorPatternSpec (s : String) (n : Nat) : Prop :=
  ∃ ds rest, ds ≠ [] ∧ (∀ c ∈ ds, c.isDigit = true) ∧ n = digitsToNat ds ∧
    (s.data = ds ++ ':' :: rest ∨
     s.data = ds ++ 'L' :: ':' :: rest ∨
     s.data = '(' :: (ds ++ ',' :: rest) ∨
     s.data = '(' :: (ds ++ 'L' :: ',' :: rest))

/-- A production (non-sandbox) process environment. -/
def prodEnviron : Environ := [("SERVER_SOFTWARE", "Google App Engine/1.9.0")]

/-- A parsed URL whose query string has no `instance` parameter. -/
def noInstanceURL : URL :=
  { host := some "h", database := some "mydb", username := none,
    password := none, port := none, query := [] }

theorem lookupAssoc_dictSet_self {α : Type} (d : List (String × α)) (k : String) (v : α) :
    lookupAssoc (dictSet d k v) k = some v := by
  induction d with
  | nil => simp [dictSet, lookupAssoc]
  | cons p rest ih =>
    obtain ⟨k', v'⟩ := p
    by_cases h : k' = k <;> simp [dictSet, lookupAssoc, h, ih]

theorem lookupAssoc_dictSet_ne {α : Type} (d : List (String × α)) (k k' : String) (v : α)
    (h : k' ≠ k) : lookupAssoc (dictSet d k v) k' = lookupAssoc d k' := by
  induction d with
  | nil =>
    have h2 : ¬(k = k') := fun hh => h hh.symm
    simp [dictSet, lookupAssoc, h2]
  | cons p rest ih =>
    obtain ⟨k0, v0⟩ := p
    by_cases h0 : k0 = k
    · subst h0
      have h2 : ¬(k0 = k') := fun hh => h hh.symm
      simp [dictSet, lookupAssoc, h2]
    · by_cases h1 : k0 = k' <;> simp [dictSet, lookupAssoc, h0, h1, h, ih]

theorem lookupAssoc_append_none {α : Type} (a b : List (String × α)) (k : String)
    (h : lookupAssoc a k = none) : lookupAssoc (a ++ b) k = lookupAssoc b k := by
  induction a with
  | nil => simp
  | cons p rest ih =>
    obtain ⟨k', v⟩ := p
    by_cases h0 : k' = k
    · simp [lookupAssoc, h0] at h
    · simp [lookupAssoc, h0] at h ⊢
      exact ih h

theorem lookupAssoc_append_of_none {α : Type} {a b : List (String × α)} {k : String}
    (ha : lookupAssoc a k = none) (hb : lookupAssoc b k = none) :
    lookupAssoc (a ++ b) k = none := by
  rw [lookupAssoc_append_none a b k ha]
  exact hb

theorem lookupAssoc_optEntry_ne (kk : String) (v : Option PyValue) (k : String)
    (h : kk ≠ k) : lookupAssoc (optEntry kk v) k = none := by
  cases v <;> simp [optEntry, lookupAssoc, h]

theorem lookup_translate_none (url : URL) (k : String)
    (h1 : k ≠ "host") (h2 : k ≠ "database") (h3 : k ≠ "username")
    (h4 : k ≠ "password") (h5 : k ≠ "port") :
    lookupAssoc (translate_connect_args url) k = none := by
  unfold translate_connect_args
  exact lookupAssoc_append_of_none
    (lookupAssoc_append_of_none
      (lookupAssoc_append_of_none
        (lookupAssoc_append_of_none
          (lookupAssoc_optEntry_ne _ _ _ (Ne.symm h1))
          (lookupAssoc_optEntry_ne _ _ _ (Ne.symm h2)))
        (lookupAssoc_optEntry_ne _ _ _ (Ne.symm h3)))
      (lookupAssoc_optEntry_ne _ _ _ (Ne.symm h4)))
    (lookupAssoc_optEntry_ne _ _ _ (Ne.symm h5))

theorem lookup_translate_mem (url : URL) (k : String) (v : PyValue)
    (h : lookupAssoc (translate_connect_args url) k = some v) :
    k = "host" ∨ k = "database" ∨ k = "username" ∨ k = "password" ∨ k = "port" := by
  by_contra hc
  push_neg at hc
  obtain ⟨h1, h2, h3, h4, h5⟩ := hc
  rw [lookup_translate_none url k h1 h2 h3 h4 h5] at h
  exact Option.noConfusion h

theorem startsWithList_iff (p : List Char) :
    ∀ s : List Char, startsWithList p s = true ↔ ∃ t, s = p ++ t := by
  induction p with
  | nil =>
    intro s
    simp [startsWithList]
  | cons c cs ih =>
    intro s
    cases s with
    | nil => simp [startsWithList]
    | cons d ds =>
      by_cases h : c = d
      · subst h
        simp [startsWithList, ih ds]
      · constructor
        · intro hf
          have hif : (if c = d then startsWithList cs ds else false) = true := hf
          rw [if_neg h] at hif
          exact absurd hif (by simp)
        · rintro ⟨t, ht⟩
          rw [List.cons_append] at ht
          injection ht with h1 h2
          exact absurd h1.symm h

/-- C4: `_is_dev_environment` is true exactly when the `SERVER_SOFTWARE`
environment variable's value starts with the prefix `Development/` (that
is, when the value is `"Development/"` followed by anything), and false
whenever the variable is absent (the absent case defaults to the empty
string, which does not carry the prefix). -/
theorem is_dev_environment_spec :
    (∀ (environ : Environ) (v : String),
      lookupAssoc environ "SERVER_SOFTWARE" = some v →
      _is_dev_environment environ = pyStartswith v "Development/") ∧
    (∀ v : String,
      pyStartswith v "Development/" = true ↔
        ∃ t, v.data = "Development/".data ++ t) ∧
    (∀ environ : Environ,
      lookupAssoc environ "SERVER_SOFTWARE" = none →
      _is_dev_environment environ = false) := by
  refine ⟨?_, ?_, ?_⟩
  · intro environ v h
    unfold _is_dev_environment
    rw [h]
    rfl
  · intro v
    exact startsWithList_iff "Development/".data v.data
  · intro environ h
    unfold _is_dev_environment
    rw [h]
    decide

/-- Witness for C4 at a concrete sandbox environment and an absent
variable. -/
theorem is_dev_environment_spec_witness :
    _is_dev_environment [("SERVER_SOFTWARE", "Development/2.0")] = true ∧
    _is_dev_environment [] = false := by
  constructor
  · rw [is_dev_environment_spec.1 [("SERVER_SOFTWARE", "Development/2.0")]
      "Development/2.0" rfl]
    decide
  · exact is_dev_environment_spec.2.2 [] rfl

/-- C5: `get_pool_class` returns `NullPool` for every URL, never raises,
and ignores the URL entirely. -/
theorem get_pool_class_always_nullpool :
    ∀ url : URL, get_pool_class url = PoolClass.NullPool :=
  fun _ => rfl

/-- C8: `dbapi` selects by an ordered, first-match-wins rule — sandbox
environment wins, then an active `rdbms` stub, then the public-API
client — and for every combination of environment and registry state the
result is exactly one of the three modules. -/
theorem dbapi_selection :
    ∀ (environ : Environ) (getStub : String → Bool),
      (_is_dev_environment environ = true →
        dbapi environ getStub = DBAPIModule.rdbms_mysqldb) ∧
      (_is_dev_environment environ = false → getStub "rdbms" = true →
        dbapi environ getStub = DBAPIModule.rdbms_apiproxy) ∧
      (_is_dev_environment environ = false → getStub "rdbms" = false →
        dbapi environ getStub = DBAPIModule.rdbms_googleapi) ∧
      (dbapi environ getStub = DBAPIModule.rdbms_mysqldb ∨
       dbapi environ getStub = DBAPIModule.rdbms_apiproxy ∨
       dbapi environ getStub = DBAPIModule.rdbms_googleapi) := by
  intro environ getStub
  refine ⟨fun h => by simp [dbapi, h],
    fun h1 h2 => by simp [dbapi, h1, h2],
    fun h1 h2 => by simp [dbapi, h1, h2], ?_⟩
  by_cases h : _is_dev_environment environ = true <;>
    by_cases h2 : getStub "rdbms" = true <;>
      simp [dbapi, h, h2]

/-- Witness for C8: all three branches realised at concrete inputs. -/
theorem dbapi_selection_witness :
    dbapi [("SERVER_SOFTWARE", "Development/2.0")] (fun _ => false) =
      DBAPIModule.rdbms_mysqldb ∧
    dbapi prodEnviron (fun _ => true) = DBAPIModule.rdbms_apiproxy ∧
    dbapi prodEnviron (fun _ => false) = DBAPIModule.rdbms_googleapi :=
  ⟨(dbapi_selection [("SERVER_SOFTWARE", "Development/2.0")] (fun _ => false)).1
      (by decide),
   (dbapi_selection prodEnviron (fun _ => true)).2.1 (by decide) rfl,
   (dbapi_selection prodEnviron (fun _ => false)).2.2.1 (by decide) rfl⟩

/-- C6: `Str2Unicode` decodes via UTF-8 when the bytes are valid UTF-8,
falls back to Latin-1 when UTF-8 fails but Latin-1 succeeds, and returns
the literal sentinel `"[ERROR]"` when both decodings fail; being a total
function of its input, it never raises. -/
theorem str2unicode_fallback :
    (∀ (bs cp : List Nat),
      utf8Decode bs = some cp → Str2Unicode bs = cp) ∧
    (∀ (bs cp : List Nat),
      utf8Decode bs = none → latin1Decode bs = some cp → Str2Unicode bs = cp) ∧
    (∀ bs : List Nat,
      utf8Decode bs = none → latin1Decode bs = none →
      Str2Unicode bs = errorSentinel) := by
  refine ⟨?_, ?_, ?_⟩
  · intro bs cp h
    simp [Str2Unicode, h]
  · intro bs cp h1 h2
    simp [Str2Unicode, h1, h2]
  · intro bs h1 h2
    simp [Str2Unicode, h1, h2]

/-- Witness for C6: a valid UTF-8 pair, a surrogate encoding (decoded to
a lone surrogate by py2's UTF-8 codec, not routed to Latin-1), a
Latin-1-only byte, and an entry outside the byte range on which both
decodings fail. -/
theorem str2unicode_fallback_witness :
    Str2Unicode [0xC3, 0xA9] = [0xE9] ∧
    Str2Unicode [0xED, 0xA0, 0x80] = [0xD800] ∧
    Str2Unicode [0xFF] = latin1Text [0xFF] ∧
    Str2Unicode [0x130] = errorSentinel :=
  ⟨str2unicode_fallback.1 [0xC3, 0xA9] [0xE9] (by decide),
   str2unicode_fallback.1 [0xED, 0xA0, 0x80] [0xD800] (by decide),
   str2unicode_fallback.2.1 [0xFF] (latin1Text [0xFF]) (by decide) (by decide),
   str2unicode_fallback.2.2 [0x130] (by decide) (by decide)⟩

/-- C10: on genuine byte strings (every entry below 256) Latin-1
decoding is total, so the second decode attempt always succeeds and
`Str2Unicode` returns the UTF-8 decoding when one exists and the Latin-1
decoding otherwise — the sentinel branch is unreachable. -/
theorem str2unicode_sentinel_unreachable :
    ∀ bs : List Nat, bs.all (fun b => b < 256) = true →
      latin1Decode bs = some (latin1Text bs) ∧
      Str2Unicode bs = (utf8Decode bs).getD (latin1Text bs) := by
  intro bs h
  have hl : latin1Decode bs = some (latin1Text bs) := by
    simp [latin1Decode, h]
  refine ⟨hl, ?_⟩
  cases hu : utf8Decode bs <;> simp [Str2Unicode, hu, hl]

/-- Witness for C10 at a byte string that is not valid UTF-8. -/
theorem str2unicode_sentinel_unreachable_witness :
    latin1Decode [0xFF, 0x41] = some (latin1Text [0xFF, 0x41]) ∧
    Str2Unicode [0xFF, 0x41] =
      (utf8Decode [0xFF, 0x41]).getD (latin1Text [0xFF, 0x41]) :=
  str2unicode_sentinel_unreachable [0xFF, 0x41] (by decide)

/-- C9: `_extract_error_code` is total — on every input it yields either
a code or nothing, and when neither regex alternative matches it yields
nothing rather than failing. -/
theorem extract_error_code_silent :
    ∀ s : String,
      ((∃ n, _extract_error_code s = some n) ∨ _extract_error_code s = none) ∧
      (matchAlt1 s.data = none → matchAlt2 s.data = none →
        _extract_error_code s = none) := by
  intro s
  constructor
  · cases h : _extract_error_code s with
    | some n => exact Or.inl ⟨n, rfl⟩
    | none => exact Or.inr rfl
  · intro h1 h2
    simp [_extract_error_code, h1, h2]

/-- Witness for C9 at an unclassifiable exception text. -/
theorem extract_error_code_silent_witness :
    _extract_error_code "Some unrelated rewrapped message" = none :=
  (extract_error_code_silent "Some unrelated rewrapped message").2
    (by decide) (by decide)

/-- C2 counterexample: with a production environment and a URL whose
query string lacks `instance`, `create_connect_args` does not complete
without error — the dict subscript `url.query['instance']` raises
`KeyError` inside `create_connect_args` itself. -/
theorem create_connect_args_missing_instance_cex :
    _is_dev_environment prodEnviron = false ∧
    lookupAssoc noInstanceURL.query "instance" = none ∧
    create_connect_args prodEnviron noInstanceURL =
      Except.error (PyErr.keyError "instance") := by
  refine ⟨by decide, rfl, by rfl⟩

/-- C2 as amended: outside the development sandbox, when the URL's query
string lacks `instance`, `create_connect_args` raises `KeyError`
('instance') at the `url.query['instance']` subscript — it performs no
explicit validation, but the failure surfaces here, not later at the
vendor client. -/
theorem create_connect_args_missing_instance_keyerror
    (environ : Environ) (url : URL)
    (hdev : _is_dev_environment environ = false)
    (hmiss : lookupAssoc url.query "instance" = none) :
    create_connect_args environ url = Except.error (PyErr.keyError "instance") := by
  simp [create_connect_args, hdev, hmiss]

/-- Witness for the amended C2 at the concrete production environment
and instance-less URL. -/
theorem create_connect_args_missing_instance_keyerror_witness :
    create_connect_args prodEnviron noInstanceURL =
      Except.error (PyErr.keyError "instance") :=
  create_connect_args_missing_instance_keyerror prodEnviron noInstanceURL
    (by decide) rfl

/-- C7: in the development sandbox, `create_connect_args` returns the
base translation's output entirely unchanged, and that output contains
no `dsn`, `instance`, or `conv` entries. -/
theorem create_connect_args_dev_frame
    (environ : Environ) (url : URL)
    (hdev : _is_dev_environment environ = true) :
    create_connect_args environ url =
      Except.ok ([], translate_connect_args url) ∧
    lookupAssoc (translate_connect_args url) "dsn" = none ∧
    lookupAssoc (translate_connect_args url) "instance" = none ∧
    lookupAssoc (translate_connect_args url) "conv" = none := by
  refine ⟨by simp [create_connect_args, hdev], ?_, ?_, ?_⟩ <;>
    exact lookup_translate_none url _ (by decide) (by decide) (by decide)
      (by decide) (by decide)

/-- Witness for C7 at a sandbox environment and a concrete URL. -/
theorem create_connect_args_dev_frame_witness :
    create_connect_args [("SERVER_SOFTWARE", "Development/2.0")] noInstanceURL =
      Except.ok ([], translate_connect_args noInstanceURL) ∧
    lookupAssoc (translate_connect_args noInstanceURL) "dsn" = none ∧
    lookupAssoc (translate_connect_args noInstanceURL) "instance" = none ∧
    lookupAssoc (translate_connect_args noInstanceURL) "conv" = none :=
  create_connect_args_dev_frame [("SERVER_SOFTWARE", "Development/2.0")]
    noInstanceURL (by decide)

/-- C1: outside the development sandbox, for a URL whose query string
carries `instance`, `create_connect_args` returns an empty positional
list and keyword arguments with `dsn = ""`, `instance` copied verbatim
from the query string, `conv` equal to the static `CONVERTERS` table,
and every key/value the base translation produced carried through
unchanged. -/
theorem create_connect_args_nondev_instance
    (environ : Environ) (url : URL) (inst : String)
    (hdev : _is_dev_environment environ = false)
    (hinst : lookupAssoc url.query "instance" = some inst) :
    ∃ opts, create_connect_args environ url = Except.ok ([], opts) ∧
      lookupAssoc opts "dsn" = some (PyValue.str "") ∧
      lookupAssoc opts "instance" = some (PyValue.str inst) ∧
      lookupAssoc opts "conv" = some (PyValue.conv CONVERTERS) ∧
      ∀ k v, lookupAssoc (translate_connect_args url) k = some v →
        lookupAssoc opts k = some v := by
  refine ⟨dictSet (dictSet (dictSet (translate_connect_args url) "dsn"
      (PyValue.str "")) "instance" (PyValue.str inst)) "conv"
      (PyValue.conv CONVERTERS), ?_, ?_, ?_, ?_, ?_⟩
  · simp [create_connect_args, hdev, hinst]
  · rw [lookupAssoc_dictSet_ne _ _ _ _ (by decide),
      lookupAssoc_dictSet_ne _ _ _ _ (by decide),
      lookupAssoc_dictSet_self]
  · rw [lookupAssoc_dictSet_ne _ _ _ _ (by decide),
      lookupAssoc_dictSet_self]
  · rw [lookupAssoc_dictSet_self]
  · intro k v hk
    have hmem := lookup_translate_mem url k v hk
    have h1 : k ≠ "dsn" := by
      rcases hmem with h | h | h | h | h <;> subst h <;> decide
    have h2 : k ≠ "instance" := by
      rcases hmem with h | h | h | h | h <;> subst h <;> decide
    have h3 : k ≠ "conv" := by
      rcases hmem with h | h | h | h | h <;> subst h <;> decide
    rw [lookupAssoc_dictSet_ne _ _ _ _ h3, lookupAssoc_dictSet_ne _ _ _ _ h2,
      lookupAssoc_dictSet_ne _ _ _ _ h1]
    exact hk

/-- Witness for C1 at a concrete production environment and URL with an
`instance` query parameter. -/
theorem create_connect_args_nondev_instance_witness :
    ∃ opts,
      create_connect_args prodEnviron
        { host := some "h", database := some "mydb", username := none,
          password := none, port := none,
          query := [("instance", "myproj:myinstance")] } =
        Except.ok ([], opts) ∧
      lookupAssoc opts "dsn" = some (PyValue.str "") ∧
      lookupAssoc opts "instance" = some (PyValue.str "myproj:myinstance") ∧
      lookupAssoc opts "conv" = some (PyValue.conv CONVERTERS) ∧
      ∀ k v,
        lookupAssoc (translate_connect_args
          { host := some "h", database := some "mydb", username := none,
            password := none, port := none,
            query := [("instance", "myproj:myinstance")] }) k = some v →
        lookupAssoc opts k = some v :=
  create_connect_args_nondev_instance prodEnviron
    { host := some "h", database := some "mydb", username := none,
      password := none, port := none,
      query := [("instance", "myproj:myinstance")] }
    "myproj:myinstance" (by decide) rfl

theorem leadingDigits_append_eq (cs : List Char) :
    (leadingDigits cs).1 ++ (leadingDigits cs).2 = cs := by
  induction cs with
  | nil => rfl
  | cons c cs ih =>
    by_cases h : c.isDigit = true <;> simp [leadingDigits, h, ih]

theorem leadingDigits_digits (cs : List Char) :
    ∀ c ∈ (leadingDigits cs).1, c.isDigit = true := by
  induction cs with
  | nil => simp [leadingDigits]
  | cons c cs ih =>
    by_cases h : c.isDigit = true
    · simp only [leadingDigits, h, if_true]
      intro x hx
      rcases List.mem_cons.mp hx with rfl | hx
      · exact h
      · exact ih x hx
    · simp [leadingDigits, h]

theorem leadingDigits_of_digits (ds : List Char) (c : Char) (rest : List Char)
    (hds : ∀ x ∈ ds, x.isDigit = true) (hc : c.isDigit = false) :
    leadingDigits (ds ++ c :: rest) = (ds, c :: rest) := by
  induction ds with
  | nil => simp [leadingDigits, hc]
  | cons d ds ih =>
    have hd : d.isDigit = true := hds d (by simp)
    have hds2 : ∀ x ∈ ds, x.isDigit = true := fun x hx => hds x (by simp [hx])
    simp [leadingDigits, hd, ih hds2]

theorem matchAlt1_sound (cs ds : List Char) (h : matchAlt1 cs = some ds) :
    ds ≠ [] ∧ (∀ c ∈ ds, c.isDigit = true) ∧
    ∃ rest, cs = ds ++ ':' :: rest ∨ cs = ds ++ 'L' :: ':' :: rest := by
  unfold matchAlt1 at h
  split at h
  · exact absurd h (by simp)
  · split at h
    · next hne _ tail heq =>
      injection h with h
      subst h
      refine ⟨hne, leadingDigits_digits cs, tail, Or.inl ?_⟩
      have hdec := leadingDigits_append_eq cs
      rw [heq] at hdec
      exact hdec.symm
    · next hne _ tail heq =>
      injection h with h
      subst h
      refine ⟨hne, leadingDigits_digits cs, tail, Or.inr ?_⟩
      have hdec := leadingDigits_append_eq cs
      rw [heq] at hdec
      exact hdec.symm
    · exact absurd h (by simp)

theorem matchAlt2_sound (cs ds : List Char) (h : matchAlt2 cs = some ds) :
    ds ≠ [] ∧ (∀ c ∈ ds, c.isDigit = true) ∧
    ∃ rest, cs = '(' :: (ds ++ ',' :: rest) ∨
      cs = '(' :: (ds ++ 'L' :: ',' :: rest) := by
  unfold matchAlt2 at h
  split at h
  · next rest =>
    split at h
    · exact absurd h (by simp)
    · split at h
      · next hne _ tail heq =>
        injection h with h
        subst h
        refine ⟨hne, leadingDigits_digits rest, tail, Or.inl ?_⟩
        have hdec := leadingDigits_append_eq rest
        rw [heq] at hdec
        rw [hdec]
      · next hne _ tail heq =>
        injection h with h
        subst h
        refine ⟨hne, leadingDigits_digits rest, tail, Or.inr ?_⟩
        have hdec := leadingDigits_append_eq rest
        rw [heq] at hdec
        rw [hdec]
      · exact absurd h (by simp)
  · exact absurd h (by simp)

theorem matchAlt1_complete_colon (ds rest : List Char) (hne : ds ≠ [])
    (hd : ∀ c ∈ ds, c.isDigit = true) :
    matchAlt1 (ds ++ ':' :: rest) = some ds := by
  have h := leadingDigits_of_digits ds ':' rest hd (by decide)
  simp [matchAlt1, h, hne]

theorem matchAlt1_complete_L (ds rest : List Char) (hne : ds ≠ [])
    (hd : ∀ c ∈ ds, c.isDigit = true) :
    matchAlt1 (ds ++ 'L' :: ':' :: rest) = some ds := by
  have h := leadingDigits_of_digits ds 'L' (':' :: rest) hd (by decide)
  simp [matchAlt1, h, hne]

theorem matchAlt1_paren (rest : List Char) : matchAlt1 ('(' :: rest) = none := by
  have h : ('(').isDigit = false := by decide
  simp [matchAlt1, leadingDigits, h]

theorem matchAlt2_complete_comma (ds rest : List Char) (hne : ds ≠ [])
    (hd : ∀ c ∈ ds, c.isDigit = true) :
    matchAlt2 ('(' :: (ds ++ ',' :: rest)) = some ds := by
  have h := leadingDigits_of_digits ds ',' rest hd (by decide)
  simp [matchAlt2, h, hne]

theorem matchAlt2_complete_L (ds rest : List Char) (hne : ds ≠ [])
    (hd : ∀ c ∈ ds, c.isDigit = true) :
    matchAlt2 ('(' :: (ds ++ 'L' :: ',' :: rest)) = some ds := by
  have h := leadingDigits_of_digits ds 'L' (',' :: rest) hd (by decide)
  simp [matchAlt2, h, hne]

/-- C3: `_extract_error_code` returns `some` of the captured digit run
read as a decimal integer exactly when the stringified exception matches
one of the two regex alternatives `^(\d+)L?:` or `^\((\d+)L?,`, and
`none` otherwise; in particular the three example inputs behave as the
spec states. -/
theorem extract_error_code_spec :
    (∀ (s : String) (n : Nat),
      _extract_error_code s = some n ↔ ErrorPatternSpec s n) ∧
    _extract_error_code "1045: Access denied" = some 1045 ∧
    _extract_error_code "(1062, 'Duplicate entry')" = some 1062 ∧
    _extract_error_code "Some unrelated rewrapped message" = none := by
  refine ⟨?_, by decide, by decide, by decide⟩
  intro s n
  constructor
  · intro h
    unfold _extract_error_code at h
    cases h1 : matchAlt1 s.data with
    | some ds =>
      rw [h1] at h
      simp only [Option.some.injEq] at h
      obtain ⟨hne, hdig, rest, hcs⟩ := matchAlt1_sound s.data ds h1
      refine ⟨ds, rest, hne, hdig, h.symm, ?_⟩
      rcases hcs with hc | hc
      · exact Or.inl hc
      · exact Or.inr (Or.inl hc)
    | none =>
      rw [h1] at h
      cases h2 : matchAlt2 s.data with
      | some ds =>
        rw [h2] at h
        simp only [Option.some.injEq] at h
        obtain ⟨hne, hdig, rest, hcs⟩ := matchAlt2_sound s.data ds h2
        refine ⟨ds, rest, hne, hdig, h.symm, ?_⟩
        rcases hcs with hc | hc
        · exact Or.inr (Or.inr (Or.inl hc))
        · exact Or.inr (Or.inr (Or.inr hc))
      | none =>
        rw [h2] at h
        exact absurd h (by simp)
  · rintro ⟨ds, rest, hne, hdig, hn, hcase⟩
    subst hn
    unfold _extract_error_code
    rcases hcase with hc | hc | hc | hc
    · rw [hc, matchAlt1_complete_colon ds rest hne hdig]
    · rw [hc, matchAlt1_complete_L ds rest hne hdig]
    · rw [hc, matchAlt1_paren, matchAlt2_complete_comma ds rest hne hdig]
    · rw [hc, matchAlt1_paren, matchAlt2_complete_L ds rest hne hdig]

/-- Witness for C3: the pattern specification realised at a concrete
matching input, through the equivalence. -/
theorem extract_error_code_spec_witness : ErrorPatternSpec "7: x" 7 :=
  (extract_error_code_spec.1 "7: x" 7).mp (by decide)
